import Mathlib

/-!
Shallow embedding of `src/raptor_serialize.c` (raptor serializer layer):
the serializer factory registry, the serializer lifecycle state machine
(construct / start-to-sink / namespace / statement / end), and the
serializer option get/set surface.

Modelling conventions:
* C strings become `String`; nullable pointers become `Option`.
* `raptor_uri` and `raptor_iostream` are external collaborators; they are
  modelled as opaque value wrappers.  `raptor_uri_copy` is a value copy,
  so it is the identity on the modelled value.
* The iostream constructors (`raptor_new_iostream_to_filename` etc.) are
  external; their outcome is passed to the start functions as an
  `Option Iostream` argument (`none` = stream creation failed).
* Backend hooks are opaque callbacks.  They are modelled by their result
  codes (optionally as functions of their arguments); they do not mutate
  the generic serializer state, which matches how this file treats them.
* `raptor_free_iostream` is a memory effect; `raptor_serialize_end`
  therefore additionally returns the stream it freed (`none` when no
  stream was freed), so that ownership behaviour is observable.
* The registry container (`raptor_sequence`) is modelled as a `List`
  with `push` = append and `get_at` = indexing, matching its use here.
-/

/-- Opaque RDF triple value flowing through `raptor_serialize_statement`;
an external collaborator, never inspected by this file. -/
structure Statement where
  id : Nat
deriving DecidableEq

/-- Opaque URI value (`raptor_uri`); only its identity matters here. -/
structure Uri where
  str : String
deriving DecidableEq

/-- Opaque byte stream handle (`raptor_iostream`); an external sink
capability.  Only its identity matters to the serializer layer. -/
structure Iostream where
  id : Nat
deriving DecidableEq

/-- Namespace object (`raptor_namespace`): a URI plus an optional
prefix string, as read back by `raptor_namespace_get_uri` and
`raptor_namespace_get_prefix`. -/
structure RNamespace where
  uri : Option Uri
  pfx : Option String

/-- Locator record embedded in the serializer (`raptor_locator`):
URI reference plus line/column cursor. -/
structure Locator where
  uri : Option Uri
  line : Int
  column : Int
deriving DecidableEq

/-- Backend capability record populated by a registration initializer:
`context_length` plus the lifecycle hook set of a
`raptor_serializer_factory`.  Hooks are modelled by their result codes;
optional hooks are `Option`, the mandatory statement hook is total
(`init` is the result the backend init hook returns at construction). -/
structure SerializerHooks where
  context_length : Nat
  init : Int
  serialize_start : Option Int
  declare_namespace : Option (Option Uri → Option String → Int)
  declare_namespace_from_namespace : Option (RNamespace → Int)
  serialize_statement : Statement → Int
  serialize_end : Option Int

/-- Placeholder hook set of a freshly calloc-ed factory, before the
registration initializer populates it. -/
def defaultHooks : SerializerHooks :=
  { context_length := 0
    init := 0
    serialize_start := none
    declare_namespace := none
    declare_namespace_from_namespace := none
    serialize_statement := fun _ => 0
    serialize_end := none }

/-- One registered serializer descriptor (`raptor_serializer_factory`):
identity strings copied by `raptor_serializer_register_factory` plus the
hook set installed by the registration initializer. -/
structure SerializerFactory where
  name : String
  label : String
  mime_type : Option String
  alias_str : Option String
  uri_string : Option String
  hooks : SerializerHooks

/-- Embedding of `raptor_serializer_register_factory`
(src/raptor_serialize.c:156): linear scan of the registry for a primary
name collision, failing (non-0) with the registry unchanged on a
collision; otherwise the descriptor is appended and the initializer
callback is run on it.  The initializer is modelled as returning the
hook set it installs together with its result code; on initializer
failure the call fails but the entry stays registered.  Allocation
failure paths are not modelled. -/
def raptor_serializer_register_factory (serializers : List SerializerFactory)
    (name label : String) (mime_type alias_str uri_string : Option String)
    (initf : SerializerFactory → SerializerHooks × Int) :
    List SerializerFactory × Int :=
  if serializers.any (fun f => f.name == name) = true then
    (serializers, 1)
  else
    let d0 : SerializerFactory :=
      { name := name, label := label, mime_type := mime_type,
        alias_str := alias_str, uri_string := uri_string, hooks := defaultHooks }
    let r := initf d0
    (serializers ++ [{ d0 with hooks := r.1 }], if r.2 = 0 then 0 else 1)

/-- Match of one descriptor against a lookup key, as in the scan of
`raptor_get_serializer_factory`: primary name or alias, exact string
equality. -/
def factory_matches (f : SerializerFactory) (n : String) : Bool :=
  f.name == n || f.alias_str == some n

/-- Embedding of `raptor_get_serializer_factory`
(src/raptor_serialize.c:258): no name requested returns the first
registered descriptor (or none when empty); otherwise a linear scan in
registration order returning the first descriptor whose name or alias
equals the key. -/
def raptor_get_serializer_factory (serializers : List SerializerFactory)
    (name : Option String) : Option SerializerFactory :=
  match name with
  | none => serializers.head?
  | some n => serializers.find? (fun f => factory_matches f n)

/-- Registry states reachable from the empty registry
(`raptor_serializers_init` creates an empty sequence; the only mutation
afterward is `raptor_serializer_register_factory`). -/
inductive ReachableRegistry : List SerializerFactory → Prop where
  | base : ReachableRegistry []
  | step (w : List SerializerFactory) (name label : String)
      (mime_type alias_str uri_string : Option String)
      (initf : SerializerFactory → SerializerHooks × Int) :
      ReachableRegistry w →
      ReachableRegistry
        (raptor_serializer_register_factory w name label mime_type alias_str
          uri_string initf).1

/-- Serializer session state (`raptor_serializer` from raptor_internal.h
as used by src/raptor_serialize.c): descriptor reference, base URI,
locator, sink reference and its ownership flag, and the option fields.
The backend context is opaque and carries no observable state here. -/
structure Serializer where
  factory : SerializerFactory
  base_uri : Option Uri
  locator : Locator
  iostream : Option Iostream
  free_iostream_on_end : Bool
  option_write_base_uri : Int
  option_relative_uris : Int
  xml_version : Int
  option_write_xml_declaration : Int
  option_prefix_elements : Int
  option_resource_border : Option String
  option_literal_border : Option String
  option_bnode_border : Option String
  option_resource_fill : Option String
  option_literal_fill : Option String
  option_bnode_fill : Option String
  option_json_callback : Option String
  option_json_extra_data : Option String
  option_rss_triples : Option String
  option_atom_entry_uri : Option String

/-- Serializer record as built by `raptor_new_serializer`
(src/raptor_serialize.c:359) just before the backend init hook runs:
calloc zero-fill (no sink, no base URI, zero locator, ownership flag
clear, string options null) followed by the explicit defaults. -/
def freshSerializer (factory : SerializerFactory) : Serializer :=
  { factory := factory
    base_uri := none
    locator := { uri := none, line := 0, column := 0 }
    iostream := none
    free_iostream_on_end := false
    option_write_base_uri := 1
    option_relative_uris := 1
    xml_version := 10
    option_write_xml_declaration := 1
    option_prefix_elements := 0
    option_resource_border := none
    option_literal_border := none
    option_bnode_border := none
    option_resource_fill := none
    option_literal_fill := none
    option_bnode_fill := none
    option_json_callback := none
    option_json_extra_data := none
    option_rss_triples := none
    option_atom_entry_uri := none }

/-- Embedding of `raptor_new_serializer` (src/raptor_serialize.c:359):
factory lookup (none on NotFound), allocation and defaults, then the
backend init hook; a failing init hook destroys the serializer and the
constructor returns none. -/
def raptor_new_serializer (serializers : List SerializerFactory)
    (name : Option String) : Option Serializer :=
  match raptor_get_serializer_factory serializers name with
  | none => none
  | some factory =>
    if factory.hooks.init = 0 then some (freshSerializer factory) else none

/-- Result of the optional backend start hook as dispatched at the end
of every start-to-sink function: the hook result when present,
otherwise 0. -/
def serializeStartHookResult (s : Serializer) : Int :=
  match s.factory.hooks.serialize_start with
  | some rc => rc
  | none => 0

/-- Embedding of `raptor_serialize_start_to_iostream`
(src/raptor_serialize.c:444): fails when no iostream is supplied;
otherwise copies the base URI, resets the locator, stores the borrowed
stream (the ownership flag is NOT touched) and runs the start hook if
present. -/
def raptor_serialize_start_to_iostream (s : Serializer) (uri : Option Uri)
    (iostream : Option Iostream) : Serializer × Int :=
  match iostream with
  | none => (s, 1)
  | some io =>
    let s1 := { s with base_uri := uri
                       locator := { uri := uri, line := 0, column := 0 }
                       iostream := some io }
    (s1, serializeStartHookResult s1)

/-- Embedding of `raptor_serialize_start_to_filename`
(src/raptor_serialize.c:478).  `uriOfFilename` is the outcome of the
external `raptor_uri_filename_to_uri_string` + `raptor_new_uri` pair
(`none` = conversion failed, an early return before any state change);
`newIostream` is the outcome of `raptor_new_iostream_to_filename`.  The
base URI and locator are updated, and the iostream field assigned,
before the stream-creation check, so a stream failure leaves them at
their new values. -/
def raptor_serialize_start_to_filename (s : Serializer) (filename : String)
    (uriOfFilename : Option Uri) (newIostream : Option Iostream) :
    Serializer × Int :=
  match uriOfFilename with
  | none => (s, 1)
  | some u =>
    let s1 := { s with base_uri := some u
                       locator := { uri := some u, line := 0, column := 0 }
                       iostream := newIostream }
    match newIostream with
    | none => (s1, 1)
    | some _ =>
      let s2 := { s1 with free_iostream_on_end := true }
      (s2, serializeStartHookResult s2)

/-- Embedding of `raptor_serialize_start_to_string`
(src/raptor_serialize.c:520): base URI copied (or cleared), locator
reset and the iostream field assigned before the stream-creation check;
on success the sink is owned. `newIostream` is the outcome of
`raptor_new_iostream_to_string`. -/
def raptor_serialize_start_to_string (s : Serializer) (uri : Option Uri)
    (newIostream : Option Iostream) : Serializer × Int :=
  let s1 := { s with base_uri := uri
                     locator := { uri := uri, line := 0, column := 0 }
                     iostream := newIostream }
  match newIostream with
  | none => (s1, 1)
  | some _ =>
    let s2 := { s1 with free_iostream_on_end := true }
    (s2, serializeStartHookResult s2)

/-- Embedding of `raptor_serialize_start_to_file_handle`
(src/raptor_serialize.c:562): identical shape to the string binding,
with `newIostream` the outcome of
`raptor_new_iostream_to_file_handle`. -/
def raptor_serialize_start_to_file_handle (s : Serializer) (uri : Option Uri)
    (newIostream : Option Iostream) : Serializer × Int :=
  let s1 := { s with base_uri := uri
                     locator := { uri := uri, line := 0, column := 0 }
                     iostream := newIostream }
  match newIostream with
  | none => (s1, 1)
  | some _ =>
    let s2 := { s1 with free_iostream_on_end := true }
    (s2, serializeStartHookResult s2)

/-- Embedding of `raptor_serialize_set_namespace`
(src/raptor_serialize.c:598): an empty prefix string is normalized to
no-prefix, then the call delegates to the backend declare_namespace
hook when present and fails (1) otherwise.  The sink is not consulted. -/
def raptor_serialize_set_namespace (s : Serializer) (uri : Option Uri)
    (pfx : Option String) : Int :=
  let pfx1 := if pfx = some "" then none else pfx
  match s.factory.hooks.declare_namespace with
  | some hook => hook uri pfx1
  | none => 1

/-- Embedding of `raptor_serialize_set_namespace_from_namespace`
(src/raptor_serialize.c:622): prefers the namespace-object hook, falls
back to the uri/prefix hook with the namespace's fields (no empty-prefix
normalization on this path), and fails (1) when neither exists. -/
def raptor_serialize_set_namespace_from_namespace (s : Serializer)
    (ns : RNamespace) : Int :=
  match s.factory.hooks.declare_namespace_from_namespace with
  | some hook => hook ns
  | none =>
    match s.factory.hooks.declare_namespace with
    | some hook => hook ns.uri ns.pfx
    | none => 1

/-- Embedding of `raptor_serialize_statement`
(src/raptor_serialize.c:647): fails (1) when no sink is bound, without
reaching the backend; otherwise delegates to the mandatory statement
hook and returns its result. -/
def raptor_serialize_statement (s : Serializer) (st : Statement) : Int :=
  match s.iostream with
  | none => 1
  | some _ => s.factory.hooks.serialize_statement st

/-- Embedding of `raptor_serialize_end` (src/raptor_serialize.c:665):
fails (1) when no sink is bound; otherwise runs the end hook if present
(default 0), then frees the iostream exactly when the ownership flag is
set and clears the sink reference, returning the hook result either
way.  The second component of the result pair is (result code, the
stream passed to `raptor_free_iostream`, `none` when nothing was
freed). -/
def raptor_serialize_end (s : Serializer) : Serializer × Int × Option Iostream :=
  match s.iostream with
  | none => (s, 1, none)
  | some io =>
    let rc : Int :=
      match s.factory.hooks.serialize_end with
      | some r => r
      | none => 0
    ({ s with iostream := none }, rc,
      if s.free_iostream_on_end then some io else none)

/-- Embedding of `raptor_serializer_get_iostream`
(src/raptor_serialize.c:751): the current sink reference. -/
def raptor_serializer_get_iostream (s : Serializer) : Option Iostream :=
  s.iostream

/-- Option identifiers (`raptor_option`) as enumerated by the switches
of src/raptor_serialize.c. -/
inductive RaptorOption where
  | WRITE_BASE_URI
  | RELATIVE_URIS
  | WRITER_XML_VERSION
  | WRITER_XML_DECLARATION
  | PREFIX_ELEMENTS
  | SCANNING
  | ALLOW_NON_NS_ATTRIBUTES
  | ALLOW_OTHER_PARSETYPES
  | ALLOW_BAGID
  | ALLOW_RDF_TYPE_RDF_LIST
  | NORMALIZE_LANGUAGE
  | NON_NFC_FATAL
  | WARN_OTHER_PARSETYPES
  | CHECK_RDF_ID
  | HTML_TAG_SOUP
  | MICROFORMATS
  | HTML_LINK
  | WWW_TIMEOUT
  | NO_NET
  | WRITER_AUTO_INDENT
  | WRITER_AUTO_EMPTY
  | WRITER_INDENT_WIDTH
  | RESOURCE_BORDER
  | LITERAL_BORDER
  | BNODE_BORDER
  | RESOURCE_FILL
  | LITERAL_FILL
  | BNODE_FILL
  | JSON_CALLBACK
  | JSON_EXTRA_DATA
  | RSS_TRIPLES
  | ATOM_ENTRY_URI
  | WWW_HTTP_CACHE_CONTROL
  | WWW_HTTP_USER_AGENT
deriving DecidableEq

/-- Modelled from the spec: `raptor_option_is_valid_for_area(option,
RAPTOR_OPTION_AREA_SERIALIZER)` lives in raptor_option.c, which is not
part of this file.  Per the spec's OptionCatalog ("static metadata
table (value kind, valid areas) per option identifier"; serializer-side
fields are the five numeric flags, and the string surface the ten
serializer string options), the serializer area holds exactly the five
numeric serializer options and the ten serializer string options. -/
def raptor_option_is_valid_for_serializer_area : RaptorOption → Bool
  | .WRITE_BASE_URI | .RELATIVE_URIS | .WRITER_XML_VERSION
  | .WRITER_XML_DECLARATION | .PREFIX_ELEMENTS
  | .RESOURCE_BORDER | .LITERAL_BORDER | .BNODE_BORDER
  | .RESOURCE_FILL | .LITERAL_FILL | .BNODE_FILL
  | .JSON_CALLBACK | .JSON_EXTRA_DATA | .RSS_TRIPLES
  | .ATOM_ENTRY_URI => true
  | _ => false

/-- Modelled from the spec: `raptor_option_value_is_numeric` lives in
raptor_option.c, which is not part of this file.  Per the spec's
OptionCatalog, the string-kind options are the ten serializer string
options (plus the two WWW HTTP string options, which never pass the
serializer area check); every other option is numeric. -/
def raptor_option_value_is_numeric : RaptorOption → Bool
  | .RESOURCE_BORDER | .LITERAL_BORDER | .BNODE_BORDER
  | .RESOURCE_FILL | .LITERAL_FILL | .BNODE_FILL
  | .JSON_CALLBACK | .JSON_EXTRA_DATA | .RSS_TRIPLES
  | .ATOM_ENTRY_URI
  | .WWW_HTTP_CACHE_CONTROL | .WWW_HTTP_USER_AGENT => false
  | _ => true

/-- Embedding of `raptor_serializer_set_option`
(src/raptor_serialize.c:772): rejects (-1) a negative value or an
option outside the serializer area; the five serializer numeric options
store the value (xml_version only when it is 10 or 11, silently keeping
the prior value otherwise) and return 0; every other case returns -1
unchanged. -/
def raptor_serializer_set_option (s : Serializer) (opt : RaptorOption)
    (value : Int) : Serializer × Int :=
  if value < 0 ∨ raptor_option_is_valid_for_serializer_area opt = false then
    (s, -1)
  else
    match opt with
    | .WRITE_BASE_URI => ({ s with option_write_base_uri := value }, 0)
    | .RELATIVE_URIS => ({ s with option_relative_uris := value }, 0)
    | .WRITER_XML_VERSION =>
      (if value = 10 ∨ value = 11 then { s with xml_version := value } else s, 0)
    | .WRITER_XML_DECLARATION =>
      ({ s with option_write_xml_declaration := value }, 0)
    | .PREFIX_ELEMENTS => ({ s with option_prefix_elements := value }, 0)
    | _ => (s, -1)

/-- Embedding of `raptor_serializer_get_option`
(src/raptor_serialize.c:1003): -1 when the option is outside the
serializer area or not numeric-kind; `write_base_uri` and
`relative_uris` are normalized to {0,1} by a `!= 0` test;
`prefix_elements`, `xml_version` and `write_xml_declaration` return the
stored field as is; every remaining case keeps the initial -1. -/
def raptor_serializer_get_option (s : Serializer) (opt : RaptorOption) : Int :=
  if raptor_option_is_valid_for_serializer_area opt = false then -1
  else if raptor_option_value_is_numeric opt = false then -1
  else
    match opt with
    | .WRITE_BASE_URI => if s.option_write_base_uri ≠ 0 then 1 else 0
    | .RELATIVE_URIS => if s.option_relative_uris ≠ 0 then 1 else 0
    | .PREFIX_ELEMENTS => s.option_prefix_elements
    | .WRITER_XML_VERSION => s.xml_version
    | .WRITER_XML_DECLARATION => s.option_write_xml_declaration
    | _ => -1

/-- Embedding of `raptor_serializer_get_option_string`
(src/raptor_serialize.c:1098): none when the option is outside the
serializer area or numeric-kind; otherwise the current owned buffer of
the matching string option, none in every remaining case. -/
def raptor_serializer_get_option_string (s : Serializer)
    (opt : RaptorOption) : Option String :=
  if raptor_option_is_valid_for_serializer_area opt = false then none
  else if raptor_option_value_is_numeric opt = true then none
  else
    match opt with
    | .RESOURCE_BORDER => s.option_resource_border
    | .LITERAL_BORDER => s.option_literal_border
    | .BNODE_BORDER => s.option_bnode_border
    | .RESOURCE_FILL => s.option_resource_fill
    | .LITERAL_FILL => s.option_literal_fill
    | .BNODE_FILL => s.option_bnode_fill
    | .JSON_CALLBACK => s.option_json_callback
    | .JSON_EXTRA_DATA => s.option_json_extra_data
    | .RSS_TRIPLES => s.option_rss_triples
    | .ATOM_ENTRY_URI => s.option_atom_entry_uri
    | _ => none

/-! Concrete fixtures used by witnesses and counterexamples. -/

/-- Descriptor with an empty optional hook set, as a minimal concrete
backend. -/
def plainFactory : SerializerFactory :=
  { name := "nt", label := "N-Triples", mime_type := none, alias_str := none,
    uri_string := none, hooks := defaultHooks }

/-- Descriptor whose backend supplies an end hook returning 7. -/
def endHookFactory : SerializerFactory :=
  { name := "nt", label := "N-Triples", mime_type := none, alias_str := none,
    uri_string := none, hooks := { defaultHooks with serialize_end := some 7 } }

/-- Descriptor whose backend supplies a declare_namespace hook that
always succeeds. -/
def nsHookFactory : SerializerFactory :=
  { name := "nt", label := "N-Triples", mime_type := none, alias_str := none,
    uri_string := none,
    hooks := { defaultHooks with declare_namespace := some (fun _ _ => 0) } }

/-- Registration initializer that installs the empty hook set and
succeeds. -/
def initTrivial : SerializerFactory → SerializerHooks × Int :=
  fun _ => (defaultHooks, 0)

/-- Serializer bound to an owned end hook, sink ⟨1⟩ owned: the state
after a successful owned-sink start on `endHookFactory`. -/
def endWitnessSerializer : Serializer :=
  { freshSerializer endHookFactory with
      iostream := some ⟨1⟩
      free_iostream_on_end := true }

/-- Registry after registering name "b" into the empty registry. -/
def regB : List SerializerFactory :=
  (raptor_serializer_register_factory [] "b" "syntax B" none none none
    initTrivial).1

/-- Registry after additionally registering name "a" with alias "b":
both registrations succeed because only primary names are scanned. -/
def regBA : List SerializerFactory :=
  (raptor_serializer_register_factory regB "a" "syntax A" none (some "b") none
    initTrivial).1

/-- Constructed serializer carrying an old base URI and no bound sink
(a start-valid state). -/
def startCexSerializer : Serializer :=
  { freshSerializer plainFactory with
      base_uri := some ⟨"http://old/"⟩
      locator := { uri := some ⟨"http://old/"⟩, line := 0, column := 0 } }

/-- Lifecycle scenario for the borrowed-stream ownership flag: fresh
serializer, owned start to a filename sink ⟨1⟩. -/
def ownedStartState : Serializer :=
  (raptor_serialize_start_to_filename (freshSerializer plainFactory)
    "out.rdf" (some ⟨"file:out.rdf"⟩) (some ⟨1⟩)).1

/-- The scenario after ending the owned session. -/
def ownedEndedState : Serializer :=
  (raptor_serialize_end ownedStartState).1

/-- The scenario after re-starting to a borrowed iostream ⟨2⟩. -/
def borrowedStartState : Serializer :=
  (raptor_serialize_start_to_iostream ownedEndedState none (some ⟨2⟩)).1

/-! Theorems settling the claims. -/

/-- C1: for every serializer with a bound sink, `raptor_serialize_end`
runs the backend end hook if present and, regardless of the hook's
result, an owned sink is closed (passed to `raptor_free_iostream`) and
the sink reference cleared; the call returns the hook's result, or 0
when no hook exists; a second end without an intervening start fails
(returns 1) and changes nothing. -/
theorem raptor_serialize_end_spec (s : Serializer) (io : Iostream)
    (h : s.iostream = some io) :
    (∀ rc, s.factory.hooks.serialize_end = some rc →
      (raptor_serialize_end s).2.1 = rc) ∧
    (s.factory.hooks.serialize_end = none →
      (raptor_serialize_end s).2.1 = 0) ∧
    (raptor_serialize_end s).1.iostream = none ∧
    (s.free_iostream_on_end = true →
      (raptor_serialize_end s).2.2 = some io) ∧
    (s.free_iostream_on_end = false →
      (raptor_serialize_end s).2.2 = none) ∧
    raptor_serialize_end (raptor_serialize_end s).1 =
      ((raptor_serialize_end s).1, 1, none) := by
  refine ⟨?_, ?_, ?_, ?_, ?_, ?_⟩
  · intro rc hrc; simp [raptor_serialize_end, h, hrc]
  · intro hrc; simp [raptor_serialize_end, h, hrc]
  · simp [raptor_serialize_end, h]
  · intro hf; simp [raptor_serialize_end, h, hf]
  · intro hf; simp [raptor_serialize_end, h, hf]
  · simp [raptor_serialize_end, h]

/-- C1 witness: on a serializer owning sink ⟨1⟩ whose backend end hook
returns 7, end returns 7, closes ⟨1⟩, and a second end fails. -/
theorem raptor_serialize_end_spec_witness :
    endWitnessSerializer.iostream = some ⟨1⟩ ∧
    (raptor_serialize_end endWitnessSerializer).2.1 = 7 ∧
    (raptor_serialize_end endWitnessSerializer).2.2 = some ⟨1⟩ ∧
    (raptor_serialize_end endWitnessSerializer).1.iostream = none ∧
    raptor_serialize_end (raptor_serialize_end endWitnessSerializer).1 =
      ((raptor_serialize_end endWitnessSerializer).1, 1, none) := by
  have h := raptor_serialize_end_spec endWitnessSerializer ⟨1⟩ rfl
  exact ⟨rfl, h.1 7 rfl, h.2.2.2.1 rfl, h.2.2.1, h.2.2.2.2.2⟩

/-- C8: with no bound sink, `raptor_serialize_statement` fails (1) for
every possible backend statement hook, so the hook is never consulted;
with a bound sink it returns exactly the mandatory statement hook's
result. -/
theorem raptor_serialize_statement_spec (s : Serializer) (st : Statement) :
    (s.iostream = none →
      ∀ f : Statement → Int,
        raptor_serialize_statement
          { s with factory :=
            { s.factory with hooks :=
              { s.factory.hooks with serialize_statement := f } } } st = 1) ∧
    (∀ io, s.iostream = some io →
      raptor_serialize_statement s st =
        s.factory.hooks.serialize_statement st) := by
  constructor
  · intro h f; simp [raptor_serialize_statement, h]
  · intro io h; simp [raptor_serialize_statement, h]

/-- C8 witness: a freshly constructed serializer (no sink) rejects a
statement with 1 even when the backend hook would return 5. -/
theorem raptor_serialize_statement_spec_witness :
    (freshSerializer plainFactory).iostream = none ∧
    raptor_serialize_statement
      { freshSerializer plainFactory with factory :=
        { (freshSerializer plainFactory).factory with hooks :=
          { (freshSerializer plainFactory).factory.hooks with
              serialize_statement := fun _ => 5 } } } ⟨0⟩ = 1 := by
  exact ⟨rfl,
    (raptor_serialize_statement_spec (freshSerializer plainFactory) ⟨0⟩).1 rfl
      (fun _ => 5)⟩

/-- C9 counterexample: a constructed serializer with no bound sink but a
backend declare_namespace hook that succeeds: the call returns 0
(success), refuting that declare_namespace fails whenever no sink is
bound. -/
theorem raptor_serialize_set_namespace_no_sink_counterexample :
    (freshSerializer nsHookFactory).iostream = none ∧
    raptor_serialize_set_namespace (freshSerializer nsHookFactory)
      (some ⟨"http://example.org/ns"⟩) none = 0 := ⟨rfl, rfl⟩

/-- C9 (amended): `raptor_serialize_set_namespace` never consults the
sink: it fails (1) exactly when the backend has no declare_namespace
hook (and the namespace-object variant fails when neither namespace
hook exists); when the hook exists it delegates to it with an
empty-string prefix normalized to no-prefix first; the result is the
same whatever the sink reference holds. -/
theorem raptor_serialize_set_namespace_spec (s : Serializer)
    (uri : Option Uri) (pfx : Option String) :
    (s.factory.hooks.declare_namespace = none →
      raptor_serialize_set_namespace s uri pfx = 1 ∧
      (s.factory.hooks.declare_namespace_from_namespace = none →
        ∀ ns, raptor_serialize_set_namespace_from_namespace s ns = 1)) ∧
    raptor_serialize_set_namespace s uri (some "") =
      raptor_serialize_set_namespace s uri none ∧
    (∀ io : Option Iostream,
      raptor_serialize_set_namespace { s with iostream := io } uri pfx =
        raptor_serialize_set_namespace s uri pfx) ∧
    (∀ hook, s.factory.hooks.declare_namespace = some hook → pfx ≠ some "" →
      raptor_serialize_set_namespace s uri pfx = hook uri pfx) := by
  refine ⟨?_, ?_, ?_, ?_⟩
  · intro hn
    refine ⟨by simp [raptor_serialize_set_namespace, hn], ?_⟩
    intro hn2 ns
    simp [raptor_serialize_set_namespace_from_namespace, hn, hn2]
  · simp [raptor_serialize_set_namespace]
  · intro io; rfl
  · intro hook hsome hne
    simp only [raptor_serialize_set_namespace, hsome, if_neg hne]

/-- C9 witness: a hookless backend rejects a namespace declaration with
1, and the namespace-object variant does too. -/
theorem raptor_serialize_set_namespace_spec_witness :
    raptor_serialize_set_namespace (freshSerializer plainFactory)
      (some ⟨"http://example.org/ns"⟩) (some "ex") = 1 ∧
    raptor_serialize_set_namespace_from_namespace (freshSerializer plainFactory)
      ⟨some ⟨"http://example.org/ns"⟩, some "ex"⟩ = 1 := by
  have h := (raptor_serialize_set_namespace_spec (freshSerializer plainFactory)
    (some ⟨"http://example.org/ns"⟩) (some "ex")).1 rfl
  exact ⟨h.1, h.2 rfl ⟨some ⟨"http://example.org/ns"⟩, some "ex"⟩⟩

/-- C10: evaluation of the borrowed-binding ownership defect: after an
owned filename session is ended and the serializer is re-started on a
caller-owned iostream ⟨2⟩, `raptor_serialize_end` clears the sink
reference (accessor none, statement rejected) but also hands the
caller's stream ⟨2⟩ to `raptor_free_iostream`, because
`raptor_serialize_start_to_iostream` never clears the stale
`free_iostream_on_end` flag. -/
theorem raptor_serialize_end_frees_borrowed_iostream :
    raptor_serializer_get_iostream borrowedStartState = some ⟨2⟩ ∧
    borrowedStartState.free_iostream_on_end = true ∧
    (raptor_serialize_end borrowedStartState).2.2 = some ⟨2⟩ ∧
    (raptor_serialize_end borrowedStartState).1.iostream = none ∧
    raptor_serializer_get_iostream (raptor_serialize_end borrowedStartState).1 =
      none ∧
    raptor_serialize_statement (raptor_serialize_end borrowedStartState).1
      ⟨0⟩ = 1 := ⟨rfl, rfl, rfl, rfl, rfl, rfl⟩

/-- C5: every successfully constructed serializer starts with
write_base_uri = 1, relative_uris = 1, xml_version = 10,
write_xml_declaration = 1, prefix_elements = 0 (both as stored fields
and through the numeric getter), and every string option unset: the
string getter returns none for every option. -/
theorem raptor_new_serializer_defaults (w : List SerializerFactory)
    (nm : Option String) (s : Serializer)
    (h : raptor_new_serializer w nm = some s) :
    s.option_write_base_uri = 1 ∧ s.option_relative_uris = 1 ∧
    s.xml_version = 10 ∧ s.option_write_xml_declaration = 1 ∧
    s.option_prefix_elements = 0 ∧
    raptor_serializer_get_option s .WRITE_BASE_URI = 1 ∧
    raptor_serializer_get_option s .RELATIVE_URIS = 1 ∧
    raptor_serializer_get_option s .WRITER_XML_VERSION = 10 ∧
    raptor_serializer_get_option s .WRITER_XML_DECLARATION = 1 ∧
    raptor_serializer_get_option s .PREFIX_ELEMENTS = 0 ∧
    (∀ opt, raptor_serializer_get_option_string s opt = none) := by
  unfold raptor_new_serializer at h
  cases hf : raptor_get_serializer_factory w nm with
  | none => rw [hf] at h; cases h
  | some factory =>
    rw [hf] at h
    dsimp only at h
    by_cases hinit : factory.hooks.init = 0
    · rw [if_pos hinit] at h
      cases h
      refine ⟨rfl, rfl, rfl, rfl, rfl, rfl, rfl, rfl, rfl, rfl, ?_⟩
      intro opt
      cases opt <;> rfl
    · rw [if_neg hinit] at h; cases h

/-- C5 witness: constructing from the one-entry registry containing
`plainFactory` by name yields a serializer with all defaults in place. -/
theorem raptor_new_serializer_defaults_witness :
    raptor_new_serializer [plainFactory] (some "nt") =
      some (freshSerializer plainFactory) ∧
    (freshSerializer plainFactory).xml_version = 10 ∧
    raptor_serializer_get_option (freshSerializer plainFactory)
      .WRITE_BASE_URI = 1 ∧
    raptor_serializer_get_option (freshSerializer plainFactory)
      .RELATIVE_URIS = 1 ∧
    raptor_serializer_get_option_string (freshSerializer plainFactory)
      .RESOURCE_BORDER = none := by
  have h := raptor_new_serializer_defaults [plainFactory] (some "nt")
    (freshSerializer plainFactory) rfl
  exact ⟨rfl, h.2.2.1, h.2.2.2.2.2.1, h.2.2.2.2.2.2.1,
    h.2.2.2.2.2.2.2.2.2.2 .RESOURCE_BORDER⟩

/-- C6: for every non-negative v, `raptor_serializer_set_option` on
xml_version returns success but leaves the serializer untouched when v
is outside {10, 11}; for v in {10, 11} it stores v, and the getter then
returns v; in particular 12 is ignored and 11 is stored. -/
theorem raptor_serializer_set_option_xml_version (s : Serializer) (v : Int)
    (hv : 0 ≤ v) :
    (v ≠ 10 → v ≠ 11 →
      raptor_serializer_set_option s .WRITER_XML_VERSION v = (s, 0)) ∧
    (v = 10 ∨ v = 11 →
      (raptor_serializer_set_option s .WRITER_XML_VERSION v).1.xml_version = v ∧
      (raptor_serializer_set_option s .WRITER_XML_VERSION v).2 = 0 ∧
      raptor_serializer_get_option
        (raptor_serializer_set_option s .WRITER_XML_VERSION v).1
        .WRITER_XML_VERSION = v) ∧
    raptor_serializer_set_option s .WRITER_XML_VERSION 12 = (s, 0) ∧
    raptor_serializer_get_option
      (raptor_serializer_set_option s .WRITER_XML_VERSION 11).1
      .WRITER_XML_VERSION = 11 := by
  have hcond : ¬(v < 0 ∨
      raptor_option_is_valid_for_serializer_area .WRITER_XML_VERSION = false) := by
    simp [raptor_option_is_valid_for_serializer_area, not_lt.mpr hv]
  refine ⟨?_, ?_, ?_, ?_⟩
  · intro h10 h11
    unfold raptor_serializer_set_option
    rw [if_neg hcond]
    simp [h10, h11]
  · intro hin
    unfold raptor_serializer_set_option
    rw [if_neg hcond, if_pos hin]
    refine ⟨rfl, rfl, ?_⟩
    simp [raptor_serializer_get_option,
      raptor_option_is_valid_for_serializer_area, raptor_option_value_is_numeric]
  · unfold raptor_serializer_set_option
    rw [if_neg (by decide)]
    rw [if_neg (by decide)]
  · unfold raptor_serializer_set_option
    rw [if_neg (by decide)]
    rw [if_pos (by decide)]
    simp [raptor_serializer_get_option, raptor_option_is_valid_for_serializer_area,
      raptor_option_value_is_numeric]

/-- C6 witness: on a concrete constructed serializer, setting
xml_version to 12 keeps 10 and setting it to 11 makes the getter
return 11. -/
theorem raptor_serializer_set_option_xml_version_witness :
    raptor_serializer_set_option (freshSerializer plainFactory)
      .WRITER_XML_VERSION 12 = (freshSerializer plainFactory, 0) ∧
    raptor_serializer_get_option
      (raptor_serializer_set_option (freshSerializer plainFactory)
        .WRITER_XML_VERSION 11).1 .WRITER_XML_VERSION = 11 := by
  have h := raptor_serializer_set_option_xml_version
    (freshSerializer plainFactory) 12 (by decide)
  exact ⟨h.2.2.1, h.2.2.2⟩

/-- C7 counterexample: storing 2 into prefix_elements succeeds and the
numeric getter then returns 2, which is neither 0 nor 1, refuting that
every boolean-flag option is normalized on read. -/
theorem raptor_serializer_get_option_prefix_elements_counterexample :
    (raptor_serializer_set_option (freshSerializer plainFactory)
      .PREFIX_ELEMENTS 2).2 = 0 ∧
    raptor_serializer_get_option
      (raptor_serializer_set_option (freshSerializer plainFactory)
        .PREFIX_ELEMENTS 2).1 .PREFIX_ELEMENTS = 2 ∧
    raptor_serializer_get_option
      (raptor_serializer_set_option (freshSerializer plainFactory)
        .PREFIX_ELEMENTS 2).1 .PREFIX_ELEMENTS ≠ 0 ∧
    raptor_serializer_get_option
      (raptor_serializer_set_option (freshSerializer plainFactory)
        .PREFIX_ELEMENTS 2).1 .PREFIX_ELEMENTS ≠ 1 := by
  refine ⟨rfl, rfl, by decide, by decide⟩

/-- C7 (amended): `raptor_serializer_get_option` returns -1 when the
option is outside the serializer area or is string-kind; otherwise it
returns the stored field, where only write_base_uri and relative_uris
are normalized to {0,1}, while xml_version, write_xml_declaration and
prefix_elements are returned exactly as stored (in particular,
prefix_elements echoes whatever non-negative value set stored). -/
theorem raptor_serializer_get_option_spec (s : Serializer)
    (opt : RaptorOption) (v : Int) :
    (raptor_option_is_valid_for_serializer_area opt = false →
      raptor_serializer_get_option s opt = -1) ∧
    (raptor_option_value_is_numeric opt = false →
      raptor_serializer_get_option s opt = -1) ∧
    (raptor_serializer_get_option s .WRITE_BASE_URI = 0 ∨
      raptor_serializer_get_option s .WRITE_BASE_URI = 1) ∧
    (raptor_serializer_get_option s .RELATIVE_URIS = 0 ∨
      raptor_serializer_get_option s .RELATIVE_URIS = 1) ∧
    raptor_serializer_get_option s .WRITER_XML_VERSION = s.xml_version ∧
    raptor_serializer_get_option s .WRITER_XML_DECLARATION =
      s.option_write_xml_declaration ∧
    raptor_serializer_get_option s .PREFIX_ELEMENTS =
      s.option_prefix_elements ∧
    (0 ≤ v →
      (raptor_serializer_get_option
        (raptor_serializer_set_option s .WRITE_BASE_URI v).1
          .WRITE_BASE_URI = 0 ∨
       raptor_serializer_get_option
        (raptor_serializer_set_option s .WRITE_BASE_URI v).1
          .WRITE_BASE_URI = 1) ∧
      raptor_serializer_get_option
        (raptor_serializer_set_option s .PREFIX_ELEMENTS v).1
          .PREFIX_ELEMENTS = v) := by
  refine ⟨?_, ?_, ?_, ?_, ?_, ?_, ?_, ?_⟩
  · intro hval; simp [raptor_serializer_get_option, hval]
  · intro hnum
    unfold raptor_serializer_get_option
    by_cases hval : raptor_option_is_valid_for_serializer_area opt = false
    · rw [if_pos hval]
    · rw [if_neg hval, if_pos hnum]
  · unfold raptor_serializer_get_option
    by_cases hz : s.option_write_base_uri ≠ 0
    · right; simp [raptor_option_is_valid_for_serializer_area,
        raptor_option_value_is_numeric, hz]
    · left; simp [raptor_option_is_valid_for_serializer_area,
        raptor_option_value_is_numeric, hz]
  · unfold raptor_serializer_get_option
    by_cases hz : s.option_relative_uris ≠ 0
    · right; simp [raptor_option_is_valid_for_serializer_area,
        raptor_option_value_is_numeric, hz]
    · left; simp [raptor_option_is_valid_for_serializer_area,
        raptor_option_value_is_numeric, hz]
  · rfl
  · rfl
  · rfl
  · intro hv
    have hc1 : ¬(v < 0 ∨
        raptor_option_is_valid_for_serializer_area .WRITE_BASE_URI = false) := by
      simp [raptor_option_is_valid_for_serializer_area, not_lt.mpr hv]
    have hc2 : ¬(v < 0 ∨
        raptor_option_is_valid_for_serializer_area .PREFIX_ELEMENTS = false) := by
      simp [raptor_option_is_valid_for_serializer_area, not_lt.mpr hv]
    constructor
    · unfold raptor_serializer_set_option
      rw [if_neg hc1]
      unfold raptor_serializer_get_option
      by_cases hz : v ≠ 0
      · right; simp [raptor_option_is_valid_for_serializer_area,
          raptor_option_value_is_numeric, hz]
      · left; simp [raptor_option_is_valid_for_serializer_area,
          raptor_option_value_is_numeric, hz]
    · unfold raptor_serializer_set_option
      rw [if_neg hc2]
      rfl

/-- C7 witness: on a concrete serializer, a parser-area option and a
string-kind option read as -1, the normalized flags read in {0,1}, and
prefix_elements echoes the value 3 stored by set. -/
theorem raptor_serializer_get_option_spec_witness :
    raptor_serializer_get_option (freshSerializer plainFactory)
      .SCANNING = -1 ∧
    raptor_serializer_get_option (freshSerializer plainFactory)
      .RESOURCE_BORDER = -1 ∧
    (raptor_serializer_get_option (freshSerializer plainFactory)
      .WRITE_BASE_URI = 0 ∨
     raptor_serializer_get_option (freshSerializer plainFactory)
      .WRITE_BASE_URI = 1) ∧
    raptor_serializer_get_option
      (raptor_serializer_set_option (freshSerializer plainFactory)
        .PREFIX_ELEMENTS 3).1 .PREFIX_ELEMENTS = 3 := by
  have h1 := raptor_serializer_get_option_spec (freshSerializer plainFactory)
    .SCANNING 3
  have h2 := raptor_serializer_get_option_spec (freshSerializer plainFactory)
    .RESOURCE_BORDER 3
  exact ⟨h1.1 rfl, h2.2.1 rfl, h1.2.2.1, (h1.2.2.2.2.2.2.2 (by decide)).2⟩

/-- C2 counterexample: a start-valid serializer holding base URI
"http://old/": starting to a string sink whose stream creation fails
returns 1 (SinkOpenFailure) but has already replaced the base URI with
"http://new/", so the observable state is not unchanged. -/
theorem raptor_serialize_start_failure_counterexample :
    startCexSerializer.iostream = none ∧
    startCexSerializer.base_uri = some ⟨"http://old/"⟩ ∧
    (raptor_serialize_start_to_string startCexSerializer
      (some ⟨"http://new/"⟩) none).2 = 1 ∧
    (raptor_serialize_start_to_string startCexSerializer
      (some ⟨"http://new/"⟩) none).1.base_uri = some ⟨"http://new/"⟩ :=
  ⟨rfl, rfl, rfl, rfl⟩

/-- C2 (amended): for every start-valid serializer (no bound sink), a
path-derived, memory-buffer or file-handle start whose stream creation
fails returns 1 (SinkOpenFailure) and leaves the sink unbound exactly
as before and the ownership flag unchanged, but the base URI and
locator have already been updated to the new session's values. -/
theorem raptor_serialize_start_sink_failure (s : Serializer)
    (uri : Option Uri) (filename : String) (u : Uri)
    (h : s.iostream = none) :
    ((raptor_serialize_start_to_string s uri none).2 = 1 ∧
     (raptor_serialize_start_to_string s uri none).1.iostream = s.iostream ∧
     (raptor_serialize_start_to_string s uri none).1.free_iostream_on_end =
       s.free_iostream_on_end ∧
     (raptor_serialize_start_to_string s uri none).1.base_uri = uri ∧
     (raptor_serialize_start_to_string s uri none).1.locator =
       { uri := uri, line := 0, column := 0 }) ∧
    ((raptor_serialize_start_to_file_handle s uri none).2 = 1 ∧
     (raptor_serialize_start_to_file_handle s uri none).1.iostream =
       s.iostream ∧
     (raptor_serialize_start_to_file_handle s uri none).1.free_iostream_on_end =
       s.free_iostream_on_end ∧
     (raptor_serialize_start_to_file_handle s uri none).1.base_uri = uri ∧
     (raptor_serialize_start_to_file_handle s uri none).1.locator =
       { uri := uri, line := 0, column := 0 }) ∧
    ((raptor_serialize_start_to_filename s filename (some u) none).2 = 1 ∧
     (raptor_serialize_start_to_filename s filename (some u) none).1.iostream =
       s.iostream ∧
     (raptor_serialize_start_to_filename s filename (some u)
       none).1.free_iostream_on_end = s.free_iostream_on_end ∧
     (raptor_serialize_start_to_filename s filename (some u) none).1.base_uri =
       some u ∧
     (raptor_serialize_start_to_filename s filename (some u) none).1.locator =
       { uri := some u, line := 0, column := 0 }) := by
  refine ⟨⟨rfl, ?_, rfl, rfl, rfl⟩, ⟨rfl, ?_, rfl, rfl, rfl⟩,
    ⟨rfl, ?_, rfl, rfl, rfl⟩⟩ <;> rw [h] <;> rfl

/-- C2 witness: the amended behaviour at the concrete start-valid
serializer `startCexSerializer`. -/
theorem raptor_serialize_start_sink_failure_witness :
    startCexSerializer.iostream = none ∧
    (raptor_serialize_start_to_string startCexSerializer
      (some ⟨"http://new/"⟩) none).2 = 1 ∧
    (raptor_serialize_start_to_string startCexSerializer
      (some ⟨"http://new/"⟩) none).1.iostream = startCexSerializer.iostream ∧
    (raptor_serialize_start_to_filename startCexSerializer "x.rdf"
      (some ⟨"file:x.rdf"⟩) none).2 = 1 := by
  have h := raptor_serialize_start_sink_failure startCexSerializer
    (some ⟨"http://new/"⟩) "x.rdf" ⟨"file:x.rdf"⟩ rfl
  exact ⟨rfl, h.1.1, h.1.2.1, h.2.2.1⟩

/-- Every reachable registry has pairwise distinct primary descriptor
names, because registration rejects a name already present. -/
theorem reachable_names_nodup (w : List SerializerFactory)
    (hw : ReachableRegistry w) : (w.map SerializerFactory.name).Nodup := by
  induction hw with
  | base => simp
  | step w name label mime_type alias_str uri_string initf hw ih =>
    unfold raptor_serializer_register_factory
    by_cases hdup : w.any (fun f => f.name == name) = true
    · rw [if_pos hdup]; exact ih
    · rw [if_neg hdup]
      simp only [List.map_append, List.map_cons, List.map_nil]
      rw [List.nodup_append]
      refine ⟨ih, List.nodup_singleton _, ?_⟩
      intro a ha hb
      simp only [List.mem_singleton] at hb
      subst hb
      rcases List.mem_map.mp ha with ⟨f, hf, hfa⟩
      exact hdup (List.any_eq_true.mpr ⟨f, hf, by simp [hfa]⟩)

/-- In a list whose mapped names are pairwise distinct, an occurring
name occurs exactly once in the name filter. -/
theorem nodup_filter_name_length_one (w : List SerializerFactory)
    (n : String) (hnd : (w.map SerializerFactory.name).Nodup)
    (d : SerializerFactory) (hd : d ∈ w) (hn : d.name = n) :
    (w.filter (fun f => f.name == n)).length = 1 := by
  induction w with
  | nil => cases hd
  | cons a w ih =>
    simp only [List.map_cons, List.nodup_cons] at hnd
    rcases List.mem_cons.mp hd with h1 | h1
    · subst h1
      rw [List.filter_cons_of_pos (by simp [hn])]
      have hnil : w.filter (fun f => f.name == n) = [] := by
        refine List.filter_eq_nil_iff.mpr ?_
        intro f hf hfn
        simp only [beq_iff_eq] at hfn
        have hmem : d.name ∈ w.map SerializerFactory.name := by
          rw [hn, ← hfn]; exact List.mem_map.mpr ⟨f, hf, rfl⟩
        exact hnd.1 hmem
      rw [hnil]
      rfl
    · by_cases ha : a.name = n
      · exact absurd (List.mem_map.mpr ⟨d, h1, hn.trans ha.symm⟩) hnd.1
      · rw [List.filter_cons_of_neg (by simp [ha])]
        exact ih hnd.2 h1

/-- C3: in every reachable registry, registering a name that some
registered descriptor already carries fails with the registry unchanged
and the new entry discarded; the registry keeps exactly one descriptor
with that name, that name stays discoverable, and primary names are
pairwise distinct. -/
theorem raptor_serializer_register_factory_duplicate
    (w : List SerializerFactory) (hw : ReachableRegistry w)
    (name label : String) (mime_type alias_str uri_string : Option String)
    (initf : SerializerFactory → SerializerHooks × Int)
    (d : SerializerFactory) (hd : d ∈ w) (hn : d.name = name) :
    raptor_serializer_register_factory w name label mime_type alias_str
      uri_string initf = (w, 1) ∧
    (w.filter (fun f => f.name == name)).length = 1 ∧
    (raptor_get_serializer_factory w (some name)).isSome = true ∧
    (w.map SerializerFactory.name).Nodup := by
  have hnd := reachable_names_nodup w hw
  have hany : w.any (fun f => f.name == name) = true :=
    List.any_eq_true.mpr ⟨d, hd, by simp [hn]⟩
  refine ⟨?_, nodup_filter_name_length_one w name hnd d hd hn, ?_, hnd⟩
  · unfold raptor_serializer_register_factory
    rw [if_pos hany]
  · unfold raptor_get_serializer_factory
    rw [List.find?_isSome]
    exact ⟨d, hd, by simp [factory_matches, hn]⟩

/-- C3 witness: registering "b" twice: the registry built by the first
registration rejects the second, keeping exactly one "b" entry. -/
theorem raptor_serializer_register_factory_duplicate_witness :
    raptor_serializer_register_factory regB "b" "again" none none none
      initTrivial = (regB, 1) ∧
    (regB.filter (fun f => f.name == "b")).length = 1 ∧
    (raptor_get_serializer_factory regB (some "b")).isSome = true := by
  have h := raptor_serializer_register_factory_duplicate regB
    (ReachableRegistry.step [] "b" "syntax B" none none none initTrivial
      ReachableRegistry.base)
    "b" "again" none none none initTrivial
    { name := "b", label := "syntax B", mime_type := none, alias_str := none,
      uri_string := none, hooks := defaultHooks }
    (by simp [regB, raptor_serializer_register_factory, initTrivial]) rfl
  exact ⟨h.1, h.2.1, h.2.2.1⟩

/-- First-match property of the registry scan: the first descriptor in
registration order matching the key is returned. -/
theorem find_first_match (w1 w2 : List SerializerFactory)
    (d : SerializerFactory) (n : String)
    (h1 : ∀ f ∈ w1, factory_matches f n = false)
    (h2 : factory_matches d n = true) :
    raptor_get_serializer_factory (w1 ++ d :: w2) (some n) = some d := by
  induction w1 with
  | nil =>
    show List.find? (fun f => factory_matches f n) (d :: w2) = some d
    simp [List.find?_cons, h2]
  | cons a w1 ih =>
    show List.find? (fun f => factory_matches f n) (a :: (w1 ++ d :: w2)) =
      some d
    rw [List.find?_cons_of_neg]
    · exact ih (fun f hf => h1 f (List.mem_cons_of_mem a hf))
    · simp [h1 a (List.mem_cons_self a w1)]

/-- C4 (amended): lookup with no name returns the first registered
descriptor and none on the empty registry; lookup with a name scans
registration order, returning the first descriptor whose primary name
or alias matches exactly and none when nothing matches; and when one
registration sets both a name and an alias, lookup by either returns
that same descriptor provided no earlier registration matches either
key (an earlier registration whose name or alias collides shadows it). -/
theorem raptor_get_serializer_factory_spec (d : SerializerFactory)
    (w w1 w2 : List SerializerFactory) (nameOpt : Option String)
    (n b : String) :
    raptor_get_serializer_factory [] nameOpt = none ∧
    raptor_get_serializer_factory (d :: w) none = some d ∧
    ((∀ f ∈ w, factory_matches f n = false) →
      raptor_get_serializer_factory w (some n) = none) ∧
    ((∀ f ∈ w1, factory_matches f n = false) → factory_matches d n = true →
      raptor_get_serializer_factory (w1 ++ d :: w2) (some n) = some d) ∧
    (d.alias_str = some b →
      (∀ f ∈ w1, factory_matches f d.name = false ∧
        factory_matches f b = false) →
      raptor_get_serializer_factory (w1 ++ d :: w2) (some d.name) = some d ∧
      raptor_get_serializer_factory (w1 ++ d :: w2) (some b) = some d) := by
  refine ⟨?_, rfl, ?_, ?_, ?_⟩
  · cases nameOpt <;> rfl
  · intro hnone
    unfold raptor_get_serializer_factory
    exact List.find?_eq_none.mpr (by simpa using hnone)
  · exact find_first_match w1 w2 d n
  · intro hb hnone
    constructor
    · exact find_first_match w1 w2 d d.name (fun f hf => (hnone f hf).1)
        (by simp [factory_matches])
    · exact find_first_match w1 w2 d b (fun f hf => (hnone f hf).2)
        (by simp [factory_matches, hb])

/-- C4 counterexample: registering "b", then "a" with alias "b" (both
registrations succeed because only primary names are scanned): lookup
by "a" returns the second descriptor while lookup by its alias "b"
returns the first, so lookup by primary name and by alias of one
registration disagree. -/
theorem raptor_get_serializer_factory_alias_counterexample :
    (raptor_serializer_register_factory [] "b" "syntax B" none none none
      initTrivial).2 = 0 ∧
    (raptor_serializer_register_factory regB "a" "syntax A" none (some "b")
      none initTrivial).2 = 0 ∧
    (raptor_get_serializer_factory regBA (some "a")).map
      SerializerFactory.name = some "a" ∧
    (raptor_get_serializer_factory regBA (some "a")).map
      SerializerFactory.alias_str = some (some "b") ∧
    (raptor_get_serializer_factory regBA (some "b")).map
      SerializerFactory.name = some "b" ∧
    (raptor_get_serializer_factory regBA (some "b")).map
      SerializerFactory.alias_str = some none :=
  ⟨rfl, rfl, rfl, rfl, rfl, rfl⟩

/-- C4 witness: in the two-entry registry, lookup with no name returns
the first registered descriptor, lookup misses return none, and a
shadow-free registration with both keys is found under either. -/
theorem raptor_get_serializer_factory_spec_witness :
    (raptor_get_serializer_factory regBA none).map SerializerFactory.name =
      some "b" ∧
    raptor_get_serializer_factory regBA (some "zzz") = none ∧
    (raptor_get_serializer_factory
      [{ name := "a", label := "A", mime_type := none,
         alias_str := some "c", uri_string := none, hooks := defaultHooks }]
      (some "a")) =
      (raptor_get_serializer_factory
        [{ name := "a", label := "A", mime_type := none,
           alias_str := some "c", uri_string := none, hooks := defaultHooks }]
        (some "c")) := by
  have h := raptor_get_serializer_factory_spec
    { name := "a", label := "A", mime_type := none, alias_str := some "c",
      uri_string := none, hooks := defaultHooks }
    [] [] [] none "zzz" "c"
  have h2 := (h.2.2.2.2 rfl (by intro f hf; cases hf)).1
  have h3 := (h.2.2.2.2 rfl (by intro f hf; cases hf)).2
  refine ⟨rfl, ?_, ?_⟩
  · have := raptor_get_serializer_factory_spec
      { name := "a", label := "A", mime_type := none, alias_str := some "c",
        uri_string := none, hooks := defaultHooks }
      regBA [] [] none "zzz" "c"
    exact this.2.2.1 (by decide)
  · rw [List.nil_append] at h2 h3
    rw [h2, h3]
